import Mathlib

/-!
Verification of the resource/kind resolution logic of the kgent-api
repository.

The embedded code is the `mappingFor` function of
`api/services/resourceSvc.go` (the Resolver of the spec) and the
`mappingFor` function of the standalone example `restmapper/restmapper.go`.
Both resolve a free-form resource-or-kind token against a Capability
Index (a `meta.RESTMapper` in the source, an external collaborator
here modelled as a pair of query functions).

The token parsers `ParseResourceArg`, `ParseKindArg`,
`ParseGroupResource` and `ParseGroupKind` are the ones of
`k8s.io/apimachinery/pkg/runtime/schema` that the source calls:
`ParseResourceArg` splits a token containing at least two dots as
`resource.version.group` (`strings.SplitN(arg, ".", 3)`, so the group
keeps any further dots) and always also returns the
`ParseGroupResource` split at the first dot; `ParseKindArg` is the
same with Kind in place of Resource.

To settle the claims about query counts and about repeated queries,
the embedded resolver also returns the list of Capability-Index
queries it issued, in order; the first projection is exactly the Go
function's result.
-/

/-- Group/Version/Resource triple (`schema.GroupVersionResource`). -/
structure GroupVersionResource where
  group : String
  version : String
  resource : String
deriving DecidableEq, Repr

/-- Group/Version/Kind triple (`schema.GroupVersionKind`). -/
structure GroupVersionKind where
  group : String
  version : String
  kind : String
deriving DecidableEq, Repr

/-- Group/Resource pair (`schema.GroupResource`). -/
structure GroupResource where
  group : String
  resource : String
deriving DecidableEq, Repr

/-- Group/Kind pair (`schema.GroupKind`). -/
structure GroupKind where
  group : String
  kind : String
deriving DecidableEq, Repr

/-- `GroupVersionKind.Empty()`: all three fields are the empty string. -/
def GroupVersionKind.Empty (gvk : GroupVersionKind) : Bool :=
  gvk.group = "" && gvk.version = "" && gvk.kind = ""

/-- `GroupVersionKind.GroupKind()`. -/
def GroupVersionKind.groupKind (gvk : GroupVersionKind) : GroupKind :=
  ⟨gvk.group, gvk.kind⟩

/-- `GroupResource.WithVersion(v)`. -/
def GroupResource.withVersion (gr : GroupResource) (v : String) :
    GroupVersionResource :=
  ⟨gr.group, v, gr.resource⟩

/-- `GroupKind.WithVersion(v)`. -/
def GroupKind.withVersion (gk : GroupKind) (v : String) : GroupVersionKind :=
  ⟨gk.group, v, gk.kind⟩

/-- Number of occurrences of `.` in a token (`strings.Count(arg, ".")`). -/
def countDots (s : String) : Nat :=
  (s.toList.filter (fun c => c = '.')).length

/-- Split a character list at every dot, as `strings.Split` on `"."`
does: the empty input yields one empty segment, and consecutive dots
yield empty segments. -/
def splitOnDot : List Char → List (List Char)
  | [] => [[]]
  | c :: rest =>
      let r := splitOnDot rest
      if c = '.' then [] :: r
      else
        match r with
        | h :: t => (c :: h) :: t
        | [] => [[c]]

/-- Rejoin dot-separated segments (`strings.Join` with `"."`); used to
recover the tail of a `SplitN` split, where the last segment keeps its
inner dots. -/
def interDot : List (List Char) → List Char
  | [] => []
  | [x] => x
  | x :: xs => x ++ '.' :: interDot xs

/-- `schema.ParseGroupResource`: split at the first dot; without a dot the
whole token is the resource and the group is empty. -/
def ParseGroupResource (gr : String) : GroupResource :=
  match splitOnDot gr.toList with
  | [res] => ⟨"", ⟨res⟩⟩
  | res :: rest => ⟨⟨interDot rest⟩, ⟨res⟩⟩
  | [] => ⟨"", gr⟩

/-- `schema.ParseGroupKind`: split at the first dot; without a dot the
whole token is the kind and the group is empty. -/
def ParseGroupKind (gk : String) : GroupKind :=
  match splitOnDot gk.toList with
  | [kind] => ⟨"", ⟨kind⟩⟩
  | kind :: rest => ⟨⟨interDot rest⟩, ⟨kind⟩⟩
  | [] => ⟨"", gk⟩

/-- `schema.ParseResourceArg`: when the token has at least two dots it is
read as `resource.version.group` (`SplitN` with limit 3, the group keeps
further dots); the `ParseGroupResource` split is always returned too. -/
def ParseResourceArg (arg : String) :
    Option GroupVersionResource × GroupResource :=
  let gvr : Option GroupVersionResource :=
    if 2 ≤ countDots arg then
      match splitOnDot arg.toList with
      | s0 :: s1 :: rest => some ⟨⟨interDot rest⟩, ⟨s1⟩, ⟨s0⟩⟩
      | _ => none
    else none
  (gvr, ParseGroupResource arg)

/-- `schema.ParseKindArg`: same splitting as `ParseResourceArg` with the
leading segment read as a Kind. -/
def ParseKindArg (arg : String) : Option GroupVersionKind × GroupKind :=
  let gvk : Option GroupVersionKind :=
    if 2 ≤ countDots arg then
      match splitOnDot arg.toList with
      | s0 :: s1 :: rest => some ⟨⟨interDot rest⟩, ⟨s1⟩, ⟨s0⟩⟩
      | _ => none
    else none
  (gvk, ParseGroupKind arg)

/-- Scope of a resource (`meta.RESTScope`): namespaced or cluster wide. -/
inductive ResourceScope where
  | namespaced
  | clusterScoped
deriving DecidableEq, Repr

/-- The resolved mapping (`meta.RESTMapping`): the GVR, the GVK and the
scope reported by the Capability Index. -/
structure RESTMapping where
  resource : GroupVersionResource
  groupVersionKind : GroupVersionKind
  scope : ResourceScope
deriving DecidableEq, Repr

/-- An error surfaced by a Capability-Index lookup.  `noMatch` is the
case `meta.IsNoMatchError` recognises (`NoKindMatchError` or
`NoResourceMatchError`); `other` is any other failure (connectivity and
the like). -/
inductive LookupError where
  | noMatch (gk : GroupKind) (version : String)
  | other (msg : String)
deriving DecidableEq, Repr

/-- `meta.IsNoMatchError`. -/
def LookupError.isNoMatch : LookupError → Bool
  | .noMatch _ _ => true
  | .other _ => false

/-- The Capability Index (a `meta.RESTMapper`), the external collaborator
the Resolver queries.  `kindFor` returns a GVK together with an optional
error, as the Go interface returns `(GroupVersionKind, error)` and the
resolver reads the GVK regardless; `restMapping` either returns a
mapping or fails. -/
structure CapabilityIndex where
  kindFor : GroupVersionResource → GroupVersionKind × Option LookupError
  restMapping : GroupKind → String → Except LookupError RESTMapping

/-- A single query issued against the Capability Index. -/
inductive Query where
  | kindFor (gvr : GroupVersionResource)
  | restMapping (gk : GroupKind) (version : String)
deriving DecidableEq, Repr

/-- An error returned by the service resolver `mappingFor`:
`emptyArg` is the local `"resource type cannot be empty"` check,
`noResourceType r` is the `"the server doesn't have a resource type %q"`
wrap of a no-match terminal failure, and `upstream e` is an index error
returned as-is. -/
inductive MappingError where
  | emptyArg
  | noResourceType (resource : String)
  | upstream (e : LookupError)
deriving DecidableEq, Repr

/-- The message text the service formats for each error
(`fmt.Errorf`); an upstream error keeps the index's own message. -/
def MappingError.message : MappingError → String
  | .emptyArg => "resource type cannot be empty"
  | .noResourceType r => "the server doesn't have a resource type \"" ++ r ++ "\""
  | .upstream (.noMatch gk v) =>
      "no matches for kind \"" ++ gk.kind ++ "\" in group \"" ++ gk.group
        ++ "\" version \"" ++ v ++ "\""
  | .upstream (.other msg) => msg

/-- The zero `schema.GroupVersionKind{}`. -/
def emptyGVK : GroupVersionKind := ⟨"", "", ""⟩

/-- `(*ResourceService).mappingFor` of `api/services/resourceSvc.go`,
instrumented with the ordered list of Capability-Index queries it
issues.  The Go control flow is kept step for step: the empty-token
check, `ParseResourceArg`, `KindFor` on the fully specified GVR when
present (error discarded), `KindFor` on the version-wildcard
GroupResource when the GVK is still empty (error discarded),
`RESTMapping` returned as-is when the GVK is non-empty, otherwise
`ParseKindArg`, the direct `RESTMapping` attempt on the fully specified
GVK (returned only on success), and the terminal `RESTMapping` with its
no-match wrap. -/
def mappingForT (resourceOrKindArg : String) (idx : CapabilityIndex) :
    Except MappingError RESTMapping × List Query :=
  if resourceOrKindArg = "" then
    (.error .emptyArg, [])
  else
    let fullySpecifiedGVR := (ParseResourceArg resourceOrKindArg).1
    let groupResource := (ParseResourceArg resourceOrKindArg).2
    let gvkA : GroupVersionKind :=
      match fullySpecifiedGVR with
      | some gvr => (idx.kindFor gvr).1
      | none => emptyGVK
    let qA : List Query :=
      match fullySpecifiedGVR with
      | some gvr => [Query.kindFor gvr]
      | none => []
    let gvk : GroupVersionKind :=
      if gvkA.Empty then (idx.kindFor (groupResource.withVersion "")).1
      else gvkA
    let qB : List Query :=
      if gvkA.Empty then qA ++ [Query.kindFor (groupResource.withVersion "")]
      else qA
    if !gvk.Empty then
      match idx.restMapping gvk.groupKind gvk.version with
      | .ok mapping =>
          (.ok mapping, qB ++ [Query.restMapping gvk.groupKind gvk.version])
      | .error e =>
          (.error (.upstream e),
            qB ++ [Query.restMapping gvk.groupKind gvk.version])
    else
      let groupKind := (ParseKindArg resourceOrKindArg).2
      let fullySpecifiedGVK : GroupVersionKind :=
        match (ParseKindArg resourceOrKindArg).1 with
        | some g => g
        | none => groupKind.withVersion ""
      let attempt : Option (Except LookupError RESTMapping) :=
        if !fullySpecifiedGVK.Empty then
          some (idx.restMapping fullySpecifiedGVK.groupKind
            fullySpecifiedGVK.version)
        else none
      match attempt with
      | some (.ok mapping) =>
          (.ok mapping,
            qB ++ [Query.restMapping fullySpecifiedGVK.groupKind
              fullySpecifiedGVK.version])
      | other =>
          let qC : List Query :=
            match other with
            | some _ =>
                qB ++ [Query.restMapping fullySpecifiedGVK.groupKind
                  fullySpecifiedGVK.version]
            | none => qB
          match idx.restMapping groupKind gvk.version with
          | .ok mapping =>
              (.ok mapping, qC ++ [Query.restMapping groupKind gvk.version])
          | .error e =>
              if e.isNoMatch then
                (.error (.noResourceType groupResource.resource),
                  qC ++ [Query.restMapping groupKind gvk.version])
              else
                (.error (.upstream e),
                  qC ++ [Query.restMapping groupKind gvk.version])

/-- The service resolver's result, without the query trace: exactly the
Go function's return value. -/
def mappingFor (resourceOrKindArg : String) (idx : CapabilityIndex) :
    Except MappingError RESTMapping :=
  (mappingForT resourceOrKindArg idx).1

/-- The ordered Capability-Index queries one call issues. -/
def mappingForQueries (resourceOrKindArg : String) (idx : CapabilityIndex) :
    List Query :=
  (mappingForT resourceOrKindArg idx).2

/-- `mappingFor` of `restmapper/restmapper.go`, instrumented the same
way.  It has no empty-token check, never calls `ParseKindArg`, and when
the two `KindFor` steps leave the GVK empty it falls back to a single
direct `RESTMapping` on `GroupKind{Group: groupResource.Group, Kind:
groupResource.Resource}` with empty version, returning every index
error raw. -/
def restmapperMappingForT (resourceOrKindArg : String)
    (idx : CapabilityIndex) :
    Except LookupError RESTMapping × List Query :=
  let fullySpecifiedGVR := (ParseResourceArg resourceOrKindArg).1
  let groupResource := (ParseResourceArg resourceOrKindArg).2
  let gvkA : GroupVersionKind :=
    match fullySpecifiedGVR with
    | some gvr => (idx.kindFor gvr).1
    | none => emptyGVK
  let qA : List Query :=
    match fullySpecifiedGVR with
    | some gvr => [Query.kindFor gvr]
    | none => []
  let gvk : GroupVersionKind :=
    if gvkA.Empty then (idx.kindFor (groupResource.withVersion "")).1
    else gvkA
  let qB : List Query :=
    if gvkA.Empty then qA ++ [Query.kindFor (groupResource.withVersion "")]
    else qA
  if !gvk.Empty then
    (idx.restMapping gvk.groupKind gvk.version,
      qB ++ [Query.restMapping gvk.groupKind gvk.version])
  else
    (idx.restMapping ⟨groupResource.group, groupResource.resource⟩ "",
      qB ++ [Query.restMapping ⟨groupResource.group, groupResource.resource⟩ ""])

/-- The example resolver's result, without the query trace. -/
def restmapperMappingFor (resourceOrKindArg : String)
    (idx : CapabilityIndex) : Except LookupError RESTMapping :=
  (restmapperMappingForT resourceOrKindArg idx).1

example :
    ParseResourceArg "deployments.v1.apps" =
      (some ⟨"apps", "v1", "deployments"⟩, ⟨"v1.apps", "deployments"⟩) := by
  decide

example : ParseResourceArg "pods" = (none, ⟨"", "pods"⟩) := by decide

example : ParseKindArg "Deployment.v1.apps" =
    (some ⟨"apps", "v1", "Deployment"⟩, ⟨"v1.apps", "Deployment"⟩) := by
  decide

/-! ### Concrete Capability Indexes used as test inputs -/

/-- An index that knows nothing: every `KindFor` returns the zero GVK
with no error, every `RESTMapping` fails with a no-match error. -/
def noIndex : CapabilityIndex where
  kindFor _ := (emptyGVK, none)
  restMapping gk v := .error (.noMatch gk v)

/-- The mapping for core-group pods, the spec's standard example. -/
def mPods : RESTMapping :=
  ⟨⟨"", "v1", "pods"⟩, ⟨"", "v1", "Pod"⟩, .namespaced⟩

/-- An index registering exactly core-group `v1` `Pod`/`pods`,
answering `KindFor` for resource `pods` at version `v1` or at the
empty-version wildcard, and `RESTMapping` for kind `Pod` at version
`v1` or at the empty version. -/
def podsIndex : CapabilityIndex where
  kindFor gvr :=
    if gvr.group = "" && gvr.resource = "pods"
        && (gvr.version = "v1" || gvr.version = "") then
      (⟨"", "v1", "Pod"⟩, none)
    else (emptyGVK, some (.noMatch ⟨gvr.group, gvr.resource⟩ gvr.version))
  restMapping gk v :=
    if gk.group = "" && gk.kind = "Pod" && (v = "v1" || v = "") then
      .ok mPods
    else .error (.noMatch gk v)

example : mappingFor "pods" podsIndex = .ok mPods := rfl

example : mappingFor "Pod" podsIndex = .ok mPods := rfl

example :
    mappingForQueries "a.b.c" noIndex =
      [.kindFor ⟨"c", "b", "a"⟩, .kindFor ⟨"b.c", "", "a"⟩,
        .restMapping ⟨"c", "a"⟩ "b", .restMapping ⟨"b.c", "a"⟩ ""] := by
  decide

/-! ### Stage views of the resolver

The following definitions name intermediate values of `mappingFor` (the
`gvk` variable after the two `KindFor` steps, the queries those steps
issue, the `fullySpecifiedGVK` of the kind-shaped parse, and the
terminal no-match wrap), so that path lemmas and claims can be stated
about them. -/

/-- The value of the resolver's `gvk` variable after the two `KindFor`
steps: the kind found for the fully specified GVR when the token parses
as one, else the kind found for the version-wildcard GroupResource. -/
def gvkAfterKindFor (arg : String) (idx : CapabilityIndex) :
    GroupVersionKind :=
  let gvkA : GroupVersionKind :=
    match (ParseResourceArg arg).1 with
    | some gvr => (idx.kindFor gvr).1
    | none => emptyGVK
  if gvkA.Empty then (idx.kindFor ((ParseResourceArg arg).2.withVersion "")).1
  else gvkA

/-- The `KindFor` queries the first two steps issue, in order. -/
def kindForTrace (arg : String) (idx : CapabilityIndex) : List Query :=
  let gvkA : GroupVersionKind :=
    match (ParseResourceArg arg).1 with
    | some gvr => (idx.kindFor gvr).1
    | none => emptyGVK
  let qA : List Query :=
    match (ParseResourceArg arg).1 with
    | some gvr => [Query.kindFor gvr]
    | none => []
  if gvkA.Empty then qA ++ [Query.kindFor ((ParseResourceArg arg).2.withVersion "")]
  else qA

/-- The resolver's `fullySpecifiedGVK` after the kind-shaped parse: the
fully specified GVK when the token has one, else the parsed GroupKind
with empty version. -/
def fullKindGVK (arg : String) : GroupVersionKind :=
  match (ParseKindArg arg).1 with
  | some g => g
  | none => (ParseKindArg arg).2.withVersion ""

/-- The terminal step's error handling: a no-match failure becomes the
`"the server doesn't have a resource type"` error for the parsed
resource, any other failure is returned as-is. -/
def terminalWrap (groupResource : GroupResource)
    (r : Except LookupError RESTMapping) : Except MappingError RESTMapping :=
  match r with
  | .ok m => .ok m
  | .error e =>
      if e.isNoMatch then .error (.noResourceType groupResource.resource)
      else .error (.upstream e)

/-- Path lemma: when the two `KindFor` steps produce a non-empty GVK the
resolver returns the `RESTMapping` lookup for it, errors passed through
as-is, and the trace is the `KindFor` queries plus that one lookup. -/
theorem mappingForT_of_gvk_nonempty (arg : String) (idx : CapabilityIndex)
    (h0 : ¬arg = "") (h : (gvkAfterKindFor arg idx).Empty = false) :
    mappingForT arg idx =
      ((match idx.restMapping (gvkAfterKindFor arg idx).groupKind
          (gvkAfterKindFor arg idx).version with
        | .ok m => .ok m
        | .error e => .error (.upstream e)),
        kindForTrace arg idx ++
          [Query.restMapping (gvkAfterKindFor arg idx).groupKind
            (gvkAfterKindFor arg idx).version]) := by
  unfold mappingForT gvkAfterKindFor kindForTrace at *
  dsimp only
  rw [if_neg h0]
  repeat' split
  all_goals simp_all

/-- Path lemma: when the `KindFor` steps leave the GVK empty and the
kind-shaped GVK is non-empty and its direct `RESTMapping` attempt
succeeds, the resolver returns that mapping at once. -/
theorem mappingForT_attempt_ok (arg : String) (idx : CapabilityIndex)
    (m : RESTMapping)
    (h0 : ¬arg = "") (h : (gvkAfterKindFor arg idx).Empty = true)
    (hne : (fullKindGVK arg).Empty = false)
    (hok : idx.restMapping (fullKindGVK arg).groupKind
        (fullKindGVK arg).version = .ok m) :
    mappingForT arg idx =
      (.ok m, kindForTrace arg idx ++
        [Query.restMapping (fullKindGVK arg).groupKind
          (fullKindGVK arg).version]) := by
  unfold mappingForT gvkAfterKindFor kindForTrace fullKindGVK at *
  dsimp only
  rw [if_neg h0]
  repeat' split
  all_goals simp_all


set_option maxHeartbeats 2000000 in
/-- Path lemma: when the `KindFor` steps leave the GVK empty, the
kind-shaped GVK is non-empty but its direct `RESTMapping` attempt
fails, the resolver issues the terminal `RESTMapping` on the parsed
GroupKind with empty version and returns its wrapped result. -/
theorem mappingForT_attempt_fails (arg : String) (idx : CapabilityIndex)
    (e : LookupError)
    (h0 : ¬arg = "") (h : (gvkAfterKindFor arg idx).Empty = true)
    (hne : (fullKindGVK arg).Empty = false)
    (herr : idx.restMapping (fullKindGVK arg).groupKind
        (fullKindGVK arg).version = .error e) :
    mappingForT arg idx =
      (terminalWrap (ParseResourceArg arg).2
          (idx.restMapping (ParseKindArg arg).2 ""),
        kindForTrace arg idx ++
          [Query.restMapping (fullKindGVK arg).groupKind
            (fullKindGVK arg).version,
           Query.restMapping (ParseKindArg arg).2 ""]) := by
  have hv : (gvkAfterKindFor arg idx).version = "" := by
    unfold GroupVersionKind.Empty at h
    simp only [Bool.and_eq_true, decide_eq_true_eq] at h
    exact h.1.2
  unfold mappingForT gvkAfterKindFor kindForTrace fullKindGVK
    terminalWrap at *
  dsimp only
  rw [if_neg h0]
  repeat' split
  all_goals simp_all

set_option maxHeartbeats 2000000 in
/-- Path lemma: when the `KindFor` steps leave the GVK empty and the
kind-shaped GVK is empty too, the direct attempt is skipped and the
resolver issues only the terminal `RESTMapping` on the parsed GroupKind
with empty version. -/
theorem mappingForT_no_attempt (arg : String) (idx : CapabilityIndex)
    (h0 : ¬arg = "") (h : (gvkAfterKindFor arg idx).Empty = true)
    (hfe : (fullKindGVK arg).Empty = true) :
    mappingForT arg idx =
      (terminalWrap (ParseResourceArg arg).2
          (idx.restMapping (ParseKindArg arg).2 ""),
        kindForTrace arg idx ++ [Query.restMapping (ParseKindArg arg).2 ""]) := by
  have hv : (gvkAfterKindFor arg idx).version = "" := by
    unfold GroupVersionKind.Empty at h
    simp only [Bool.and_eq_true, decide_eq_true_eq] at h
    exact h.1.2
  unfold mappingForT gvkAfterKindFor kindForTrace fullKindGVK
    terminalWrap at *
  dsimp only
  rw [if_neg h0]
  repeat' split
  all_goals simp_all

/-! ### Small helper lemmas -/

theorem parseResourceArg_snd (arg : String) :
    (ParseResourceArg arg).2 = ParseGroupResource arg := rfl

theorem parseKindArg_snd (arg : String) :
    (ParseKindArg arg).2 = ParseGroupKind arg := rfl

theorem withVersion_groupKind (gk : GroupKind) (v : String) :
    (gk.withVersion v).groupKind = gk := rfl

theorem withVersion_version (gk : GroupKind) (v : String) :
    (gk.withVersion v).version = v := rfl

/-- A token with fewer than two dots never parses as a fully specified
GVR. -/
theorem parseResourceArg_fst_none (arg : String) (h : countDots arg < 2) :
    (ParseResourceArg arg).1 = none := by
  unfold ParseResourceArg
  simp only [if_neg (by omega : ¬2 ≤ countDots arg)]

/-- A token with fewer than two dots never parses as a fully specified
GVK. -/
theorem parseKindArg_fst_none (arg : String) (h : countDots arg < 2) :
    (ParseKindArg arg).1 = none := by
  unfold ParseKindArg
  simp only [if_neg (by omega : ¬2 ≤ countDots arg)]

/-- The kind-shaped and resource-shaped first-dot splits of the same
token agree componentwise. -/
theorem parseGroupKind_eq_groupResource (arg : String) :
    ParseGroupKind arg =
      ⟨(ParseGroupResource arg).group, (ParseGroupResource arg).resource⟩ := by
  unfold ParseGroupKind ParseGroupResource
  rcases h : splitOnDot arg.toList with _ | ⟨r, _ | ⟨s, t⟩⟩ <;> simp

/-- An empty GVK is the zero value componentwise. -/
theorem gvk_empty_elim (gvk : GroupVersionKind)
    (h : gvk.Empty = true) : gvk = emptyGVK := by
  unfold GroupVersionKind.Empty at h
  simp only [Bool.and_eq_true, decide_eq_true_eq] at h
  cases gvk
  simp_all [emptyGVK]

/-- When the token parses as a fully specified GVR whose `KindFor`
answer is non-empty, that answer is the resolved GVK. -/
theorem gvkAfterKindFor_of_some (arg : String) (idx : CapabilityIndex)
    (gvr : GroupVersionResource)
    (hp : (ParseResourceArg arg).1 = some gvr)
    (hne : ((idx.kindFor gvr).1).Empty = false) :
    gvkAfterKindFor arg idx = (idx.kindFor gvr).1 := by
  unfold gvkAfterKindFor
  rw [hp]
  simp [hne]

/-- In the same situation only the one `KindFor` query is issued. -/
theorem kindForTrace_of_some (arg : String) (idx : CapabilityIndex)
    (gvr : GroupVersionResource)
    (hp : (ParseResourceArg arg).1 = some gvr)
    (hne : ((idx.kindFor gvr).1).Empty = false) :
    kindForTrace arg idx = [Query.kindFor gvr] := by
  unfold kindForTrace
  rw [hp]
  simp [hne]

/-- Path lemma for the example resolver: a non-empty GVK after the
`KindFor` steps goes straight to its `RESTMapping` lookup, returned
raw. -/
theorem restmapperMappingForT_of_gvk_nonempty (arg : String)
    (idx : CapabilityIndex)
    (h : (gvkAfterKindFor arg idx).Empty = false) :
    restmapperMappingForT arg idx =
      (idx.restMapping (gvkAfterKindFor arg idx).groupKind
          (gvkAfterKindFor arg idx).version,
        kindForTrace arg idx ++
          [Query.restMapping (gvkAfterKindFor arg idx).groupKind
            (gvkAfterKindFor arg idx).version]) := by
  unfold restmapperMappingForT gvkAfterKindFor kindForTrace at *
  dsimp only
  repeat' split
  all_goals simp_all

/-- Path lemma for the example resolver: an empty GVK after the
`KindFor` steps falls back to one direct `RESTMapping` on the
first-dot split, returned raw. -/
theorem restmapperMappingForT_of_gvk_empty (arg : String)
    (idx : CapabilityIndex)
    (h : (gvkAfterKindFor arg idx).Empty = true) :
    restmapperMappingForT arg idx =
      (idx.restMapping ⟨(ParseGroupResource arg).group,
          (ParseGroupResource arg).resource⟩ "",
        kindForTrace arg idx ++
          [Query.restMapping ⟨(ParseGroupResource arg).group,
            (ParseGroupResource arg).resource⟩ ""]) := by
  unfold restmapperMappingForT gvkAfterKindFor kindForTrace at *
  dsimp only
  repeat' split
  all_goals simp_all [parseResourceArg_snd]

/-- A Bool that is not true is false. -/
theorem bool_not_true {b : Bool} (h : ¬b = true) : b = false := by
  cases b
  · rfl
  · exact absurd rfl h

/-! ### Claims -/

/-- C1 counterexample: on the token `"a.b.c"` against an index that
answers every `KindFor` with the zero GVK and fails every
`RESTMapping`, one `mappingFor` call issues four queries (two `KindFor`
and two `RESTMapping`), more than the three the claim allows. -/
theorem resolver_three_query_cex :
    3 < (mappingForQueries "a.b.c" noIndex).length := by decide

/-- C1 (amended): a single `mappingFor` call issues at most four
sequential queries against the Capability Index, counting each
`KindFor` and each `RESTMapping` call; four are reached when a
two-dot token fails both `KindFor` steps and the direct kind-shaped
`RESTMapping` attempt. -/
theorem resolver_query_bound (arg : String) (idx : CapabilityIndex) :
    (mappingForQueries arg idx).length ≤ 4 := by
  unfold mappingForQueries mappingForT
  dsimp only
  split
  · simp
  · repeat' split
    all_goals simp_all [List.length_append]

/-- C4: on the empty token `mappingFor` fails at once with the
`"resource type cannot be empty"` InvalidArgument error and issues no
query at all against the Capability Index, whatever the index. -/
theorem empty_token_invalid (idx : CapabilityIndex) :
    mappingForT "" idx = (.error .emptyArg, []) := rfl

/-- C5: when the token parses as a fully specified GVR, the index's
`KindFor` answers it with a non-empty kind at the parsed version, and
the `RESTMapping` lookup for that kind returns a registered mapping
carrying it, the resolver succeeds with that mapping, whose GVK
version is the parsed version segment, after exactly the one `KindFor`
and the one `RESTMapping` query: steps 3 and 4 are short-circuited. -/
theorem fully_specified_version (arg : String) (idx : CapabilityIndex)
    (gvr : GroupVersionResource) (m : RESTMapping)
    (hp : (ParseResourceArg arg).1 = some gvr)
    (hkind : (idx.kindFor gvr).1.kind ≠ "")
    (hver : (idx.kindFor gvr).1.version = gvr.version)
    (hok : idx.restMapping (idx.kindFor gvr).1.groupKind
        (idx.kindFor gvr).1.version = .ok m)
    (hm : m.groupVersionKind = (idx.kindFor gvr).1) :
    mappingForT arg idx =
      (.ok m, [Query.kindFor gvr,
        Query.restMapping (idx.kindFor gvr).1.groupKind
          (idx.kindFor gvr).1.version]) ∧
      m.groupVersionKind.version = gvr.version := by
  have h0 : ¬arg = "" := by
    intro h
    subst h
    rw [parseResourceArg_fst_none "" (by decide)] at hp
    cases hp
  have hne : ((idx.kindFor gvr).1).Empty = false := by
    unfold GroupVersionKind.Empty
    simp [hkind]
  have hg := gvkAfterKindFor_of_some arg idx gvr hp hne
  have ht := kindForTrace_of_some arg idx gvr hp hne
  rw [mappingForT_of_gvk_nonempty arg idx h0 (by rw [hg]; exact hne)]
  rw [hg, ht, hok]
  exact ⟨rfl, by rw [hm, hver]⟩

/-- The registered `apps/v1` Deployment mapping. -/
def mDeploy : RESTMapping :=
  ⟨⟨"apps", "v1", "deployments"⟩, ⟨"apps", "v1", "Deployment"⟩, .namespaced⟩

/-- An index registering exactly `apps/v1` `Deployment`/`deployments`. -/
def deploysIndex : CapabilityIndex where
  kindFor gvr :=
    if gvr.group = "apps" && gvr.resource = "deployments"
        && (gvr.version = "v1" || gvr.version = "") then
      (⟨"apps", "v1", "Deployment"⟩, none)
    else (emptyGVK, some (.noMatch ⟨gvr.group, gvr.resource⟩ gvr.version))
  restMapping gk v :=
    if gk.group = "apps" && gk.kind = "Deployment" && (v = "v1" || v = "") then
      .ok mDeploy
    else .error (.noMatch gk v)

/-- Witness for C5 at the token `"deployments.v1.apps"`. -/
theorem fully_specified_version_witness :
    mappingForT "deployments.v1.apps" deploysIndex =
      (.ok mDeploy, [Query.kindFor ⟨"apps", "v1", "deployments"⟩,
        Query.restMapping ⟨"apps", "Deployment"⟩ "v1"]) ∧
      mDeploy.groupVersionKind.version = "v1" := by
  have h := fully_specified_version "deployments.v1.apps" deploysIndex
    ⟨"apps", "v1", "deployments"⟩ mDeploy rfl (by decide) rfl rfl rfl
  exact h

/-- C7: when steps 2 and 3 leave the GVK empty and the token's
kind-shaped parse yields a fully specified non-empty GVK whose direct
`RESTMapping` attempt succeeds, the resolver returns that mapping
immediately: the trace ends at the attempt, without the chain's
terminal query. -/
theorem direct_kind_attempt (arg : String) (idx : CapabilityIndex)
    (fgvk : GroupVersionKind) (m : RESTMapping)
    (hk : (ParseKindArg arg).1 = some fgvk)
    (hne : fgvk.Empty = false)
    (hempty : (gvkAfterKindFor arg idx).Empty = true)
    (hok : idx.restMapping fgvk.groupKind fgvk.version = .ok m) :
    mappingForT arg idx =
      (.ok m, kindForTrace arg idx ++
        [Query.restMapping fgvk.groupKind fgvk.version]) := by
  have h0 : ¬arg = "" := by
    intro h
    subst h
    rw [parseKindArg_fst_none "" (by decide)] at hk
    cases hk
  have hfk : fullKindGVK arg = fgvk := by
    unfold fullKindGVK
    rw [hk]
  have h := mappingForT_attempt_ok arg idx m h0 hempty
    (by rw [hfk]; exact hne) (by rw [hfk]; exact hok)
  rw [h, hfk]

/-- The mapping registered for the kind-shaped token `"a.b.c"`
(kind `a`, version `b`, group `c`). -/
def mABC : RESTMapping :=
  ⟨⟨"c", "b", "as"⟩, ⟨"c", "b", "a"⟩, .clusterScoped⟩

/-- An index whose `KindFor` knows nothing but whose `RESTMapping`
registers the group-kind `c`/`a` at version `b`. -/
def attemptIndex : CapabilityIndex where
  kindFor _ := (emptyGVK, none)
  restMapping gk v :=
    if gk = ⟨"c", "a"⟩ && v = "b" then .ok mABC
    else .error (.noMatch gk v)

/-- Witness for C7 at the token `"a.b.c"`. -/
theorem direct_kind_attempt_witness :
    mappingForT "a.b.c" attemptIndex =
      (.ok mABC, [Query.kindFor ⟨"c", "b", "a"⟩,
        Query.kindFor ⟨"b.c", "", "a"⟩,
        Query.restMapping ⟨"c", "a"⟩ "b"]) := by
  have h := direct_kind_attempt "a.b.c" attemptIndex ⟨"c", "b", "a"⟩ mABC
    rfl (by decide) (by decide) rfl
  exact h

/-- An index whose `KindFor` resolves resource `a` to kind
`g`/`v1`/`AKind` but whose `RESTMapping` knows nothing. -/
def kindOnlyIndex : CapabilityIndex where
  kindFor gvr :=
    if gvr.resource = "a" then (⟨"g", "v1", "AKind"⟩, none)
    else (emptyGVK, none)
  restMapping gk v := .error (.noMatch gk v)

/-- C3 counterexample: on token `"a"` steps 2 and 3 resolve the
non-empty GVK `g`/`v1`/`AKind`, its mapping lookup fails with a
no-match error, and the resolver surfaces that error raw instead of
the `"the server doesn't have a resource type"` NotFound wrap. -/
theorem notFound_wrap_cex :
    mappingFor "a" kindOnlyIndex =
      .error (.upstream (.noMatch ⟨"g", "AKind"⟩ "v1")) ∧
    LookupError.isNoMatch (.noMatch ⟨"g", "AKind"⟩ "v1") = true :=
  ⟨rfl, rfl⟩

/-- C3 (amended): the NotFound wrap applies only on the terminal step
of the kind-shaped branch: when steps 2 and 3 leave the GVK empty, the
direct attempt (if any) fails, and the terminal lookup fails with a
no-match error, the resolver fails with the
`"the server doesn't have a resource type"` error carrying the parsed
resource segment; on the path where steps 2 and 3 resolved a non-empty
GVK a no-match failure is returned unwrapped. -/
theorem notFound_wrap_terminal (arg : String) (idx : CapabilityIndex)
    (e : LookupError)
    (h0 : ¬arg = "")
    (hempty : (gvkAfterKindFor arg idx).Empty = true)
    (hatt : (fullKindGVK arg).Empty = true ∨
      ∃ e0, idx.restMapping (fullKindGVK arg).groupKind
        (fullKindGVK arg).version = .error e0)
    (hterm : idx.restMapping (ParseKindArg arg).2 "" = .error e)
    (hnm : e.isNoMatch = true) :
    mappingFor arg idx =
      .error (.noResourceType (ParseGroupResource arg).resource) := by
  by_cases hfe : (fullKindGVK arg).Empty = true
  · rw [mappingFor, mappingForT_no_attempt arg idx h0 hempty hfe]
    dsimp only
    rw [parseResourceArg_snd, hterm]
    simp [terminalWrap, hnm]
  · have hne : (fullKindGVK arg).Empty = false := by
      cases h : (fullKindGVK arg).Empty
      · rfl
      · exact absurd h hfe
    rcases hatt with hfe2 | ⟨e0, he0⟩
    · exact absurd hfe2 hfe
    · rw [mappingFor, mappingForT_attempt_fails arg idx e0 h0 hempty hne he0]
      dsimp only
      rw [parseResourceArg_snd, hterm]
      simp [terminalWrap, hnm]

/-- Witness for the amended C3 at `"nonexistentthing"` against the
empty index. -/
theorem notFound_wrap_terminal_witness :
    mappingFor "nonexistentthing" noIndex =
      .error (.noResourceType "nonexistentthing") := by
  have h := notFound_wrap_terminal "nonexistentthing" noIndex
    (.noMatch ⟨"", "nonexistentthing"⟩ "") (by decide) (by decide)
    (.inr ⟨.noMatch ⟨"", "nonexistentthing"⟩ "", rfl⟩) rfl rfl
  exact h

/-- The registered mapping for the bare token `a` used by the C6
counterexample. -/
def mA : RESTMapping := ⟨⟨"", "v1", "as"⟩, ⟨"", "v1", "A"⟩, .namespaced⟩

/-- An index whose every `KindFor` fails with a connectivity error
(returning the zero GVK) while `RESTMapping` still registers the
group-kind `""`/`a`. -/
def failingKindForIndex : CapabilityIndex where
  kindFor _ := (emptyGVK, some (.other "connection refused"))
  restMapping gk v :=
    if gk = ⟨"", "a"⟩ && v = "" then .ok mA
    else .error (.noMatch gk v)

/-- C6 counterexample: on token `"a"` the `KindFor` query fails with a
non-no-match connectivity error, yet the call succeeds: the error is
swallowed, not surfaced as an Upstream failure. -/
theorem upstream_surfaced_cex :
    (failingKindForIndex.kindFor ⟨"", "", "a"⟩).2 =
        some (.other "connection refused") ∧
    Query.kindFor ⟨"", "", "a"⟩ ∈ mappingForQueries "a" failingKindForIndex ∧
    mappingFor "a" failingKindForIndex = .ok mA :=
  ⟨rfl, by decide, rfl⟩

/-- C6 (amended): only the step-5 `RESTMapping` failures are surfaced;
`KindFor` errors and the direct kind-shaped attempt's failure are
discarded.  When the terminal `RESTMapping` fails with a non-no-match
error, the resolver fails with exactly that error, passed through. -/
theorem upstream_surfaced_terminal (arg : String) (idx : CapabilityIndex)
    (e : LookupError)
    (h0 : ¬arg = "")
    (hempty : (gvkAfterKindFor arg idx).Empty = true)
    (hatt : (fullKindGVK arg).Empty = true ∨
      ∃ e0, idx.restMapping (fullKindGVK arg).groupKind
        (fullKindGVK arg).version = .error e0)
    (hterm : idx.restMapping (ParseKindArg arg).2 "" = .error e)
    (hnm : e.isNoMatch = false) :
    mappingFor arg idx = .error (.upstream e) := by
  by_cases hfe : (fullKindGVK arg).Empty = true
  · rw [mappingFor, mappingForT_no_attempt arg idx h0 hempty hfe]
    dsimp only
    rw [hterm]
    simp [terminalWrap, hnm]
  · have hne : (fullKindGVK arg).Empty = false := by
      cases h : (fullKindGVK arg).Empty
      · rfl
      · exact absurd h hfe
    rcases hatt with hfe2 | ⟨e0, he0⟩
    · exact absurd hfe2 hfe
    · rw [mappingFor, mappingForT_attempt_fails arg idx e0 h0 hempty hne he0]
      dsimp only
      rw [hterm]
      simp [terminalWrap, hnm]

/-- An index that fails every query with a connectivity error. -/
def downIndex : CapabilityIndex where
  kindFor _ := (emptyGVK, none)
  restMapping _ _ := .error (.other "boom")

/-- Witness for the amended C6 at `"a"` against an unreachable index. -/
theorem upstream_surfaced_terminal_witness :
    mappingFor "a" downIndex = .error (.upstream (.other "boom")) := by
  have h := upstream_surfaced_terminal "a" downIndex (.other "boom")
    (by decide) (by decide) (.inr ⟨.other "boom", rfl⟩) rfl rfl
  exact h

/-- C10 counterexample: on the token `"."` the kind-shaped parse yields
no fully specified GVK and the synthesized GVK is empty, so the
resolver skips the direct attempt entirely: the terminal `RESTMapping`
query is issued once, not twice as the claim states. -/
theorem synthesized_retry_cex :
    (ParseKindArg ".").1 = none ∧
    mappingForT "." noIndex =
      (.error (.noResourceType ""),
        [Query.kindFor ⟨"", "", ""⟩, Query.restMapping ⟨"", ""⟩ ""]) :=
  ⟨rfl, rfl⟩

/-- C10 (amended): when both `KindFor` steps leave the GVK empty, the
kind-shaped parse yields no fully specified GVK, and the synthesized
GVK (the parsed GroupKind with empty version) is non-empty, the
resolver attempts `RESTMapping` with it; if that attempt fails, the
terminal step issues the identical `RESTMapping(groupKind, "")` query a
second time and the call returns that second result, no-match wrapped. -/
theorem synthesized_retry (arg : String) (idx : CapabilityIndex)
    (e : LookupError)
    (h0 : ¬arg = "")
    (hempty : (gvkAfterKindFor arg idx).Empty = true)
    (hnil : (ParseKindArg arg).1 = none)
    (hgk : ((ParseKindArg arg).2.withVersion "").Empty = false)
    (hfail : idx.restMapping (ParseKindArg arg).2 "" = .error e) :
    mappingForT arg idx =
      (terminalWrap (ParseGroupResource arg)
          (idx.restMapping (ParseKindArg arg).2 ""),
        kindForTrace arg idx ++
          [Query.restMapping (ParseKindArg arg).2 "",
           Query.restMapping (ParseKindArg arg).2 ""]) := by
  have hfk : fullKindGVK arg = (ParseKindArg arg).2.withVersion "" := by
    unfold fullKindGVK
    rw [hnil]
  have h := mappingForT_attempt_fails arg idx e h0 hempty
    (by rw [hfk]; exact hgk)
    (by rw [hfk, withVersion_groupKind, withVersion_version]; exact hfail)
  rw [h, parseResourceArg_snd, hfk, withVersion_groupKind, withVersion_version]

/-- Witness for the amended C10 at `"a"` against the empty index. -/
theorem synthesized_retry_witness :
    mappingForT "a" noIndex =
      (.error (.noResourceType "a"),
        [Query.kindFor ⟨"", "", "a"⟩, Query.restMapping ⟨"", "a"⟩ "",
          Query.restMapping ⟨"", "a"⟩ ""]) := by
  have h := synthesized_retry "a" noIndex (.noMatch ⟨"", "a"⟩ "")
    (by decide) (by decide) rfl (by decide) rfl
  exact h

/-- C2 counterexample: on the token `"a.b.c"` against an index whose
`KindFor` knows nothing but which maps the kind-shaped parse, the
service resolver succeeds through its `ParseKindArg` attempt while the
example resolver, which never parses the token as a kind, fails: the
two `mappingFor` functions are not verbatim duplicates. -/
theorem duplicate_mappingFor_cex :
    mappingFor "a.b.c" attemptIndex = .ok mABC ∧
    restmapperMappingFor "a.b.c" attemptIndex =
      .error (.noMatch ⟨"b.c", "a"⟩ "") :=
  ⟨rfl, rfl⟩

/-- C2 (amended): the two resolvers only agree on non-empty tokens with
fewer than two dots: there they return the same mapping on success and
fail under the same conditions (the service wraps some errors the
example returns raw); they diverge on the empty token and can diverge
on any token with two or more dots. -/
theorem mappingFor_agrees_restmapper (arg : String) (idx : CapabilityIndex)
    (h0 : ¬arg = "") (hd : countDots arg < 2) (m : RESTMapping) :
    mappingFor arg idx = .ok m ↔ restmapperMappingFor arg idx = .ok m := by
  have hpk := parseKindArg_fst_none arg hd
  have hgk2 : (⟨(ParseGroupResource arg).group,
      (ParseGroupResource arg).resource⟩ : GroupKind) =
        (ParseKindArg arg).2 := by
    rw [parseKindArg_snd, parseGroupKind_eq_groupResource]
  unfold mappingFor restmapperMappingFor
  by_cases hE : (gvkAfterKindFor arg idx).Empty = true
  · have hfk : fullKindGVK arg = (ParseKindArg arg).2.withVersion "" := by
      unfold fullKindGVK
      rw [hpk]
    rw [restmapperMappingForT_of_gvk_empty arg idx hE]
    dsimp only
    rw [hgk2]
    by_cases hfe : (fullKindGVK arg).Empty = true
    · rw [mappingForT_no_attempt arg idx h0 hE hfe]
      dsimp only
      rw [parseResourceArg_snd]
      cases hr : idx.restMapping (ParseKindArg arg).2 "" with
      | ok m2 => simp [terminalWrap, hr]
      | error e =>
          simp only [terminalWrap]
          constructor
          · intro h
            split at h <;> cases h
          · intro h
            cases h
    · have hne : (fullKindGVK arg).Empty = false := by
        cases h : (fullKindGVK arg).Empty
        · rfl
        · exact absurd h hfe
      cases hr : idx.restMapping (ParseKindArg arg).2 "" with
      | ok m2 =>
          rw [mappingForT_attempt_ok arg idx m2 h0 hE hne
            (by rw [hfk, withVersion_groupKind, withVersion_version]; exact hr)]
          simp
      | error e =>
          rw [mappingForT_attempt_fails arg idx e h0 hE hne
            (by rw [hfk, withVersion_groupKind, withVersion_version]; exact hr)]
          dsimp only
          rw [hr]
          simp only [terminalWrap]
          constructor
          · intro h
            split at h <;> cases h
          · intro h
            cases h
  · have hNE : (gvkAfterKindFor arg idx).Empty = false := by
      cases h : (gvkAfterKindFor arg idx).Empty
      · rfl
      · exact absurd h hE
    rw [mappingForT_of_gvk_nonempty arg idx h0 hNE,
      restmapperMappingForT_of_gvk_nonempty arg idx hNE]
    dsimp only
    cases hr : idx.restMapping (gvkAfterKindFor arg idx).groupKind
        (gvkAfterKindFor arg idx).version <;> simp [hr]

/-- Witness for the amended C2 at `"pods"` against the pods index. -/
theorem mappingFor_agrees_restmapper_witness :
    mappingFor "pods" podsIndex = .ok mPods ∧
    restmapperMappingFor "pods" podsIndex = .ok mPods :=
  ⟨rfl, (mappingFor_agrees_restmapper "pods" podsIndex (by decide)
    (by decide) mPods).mp rfl⟩

/-- A mapping whose GVR resource name is empty. -/
def mBlank : RESTMapping := ⟨⟨"", "", ""⟩, ⟨"", "v1", "A"⟩, .namespaced⟩

/-- An index whose `RESTMapping` answers the group-kind `""`/`a` with
the degenerate mapping `mBlank`. -/
def blankResourceIndex : CapabilityIndex where
  kindFor _ := (emptyGVK, none)
  restMapping gk v :=
    if gk = ⟨"", "a"⟩ && v = "" then .ok mBlank
    else .error (.noMatch gk v)

/-- C8 counterexample: the resolver performs no non-emptiness check of
its own: an index that answers with a mapping whose GVR resource is
empty makes `mappingFor` return success carrying that empty resource. -/
theorem success_resource_nonempty_cex :
    mappingFor "a" blankResourceIndex = .ok mBlank ∧
    mBlank.resource.resource = "" :=
  ⟨rfl, rfl⟩

/-- Every successful resolution returns verbatim a mapping obtained
from some `RESTMapping` query against the index. -/
theorem mappingFor_ok_from_index (arg : String) (idx : CapabilityIndex)
    (m : RESTMapping) (hok : mappingFor arg idx = .ok m) :
    ∃ gk v, idx.restMapping gk v = .ok m := by
  by_cases h0 : arg = ""
  · subst h0
    simp [mappingFor, mappingForT] at hok
  · by_cases hE : (gvkAfterKindFor arg idx).Empty = true
    · by_cases hfe : (fullKindGVK arg).Empty = true
      · rw [mappingFor, mappingForT_no_attempt arg idx h0 hE hfe] at hok
        dsimp only at hok
        cases hr : idx.restMapping (ParseKindArg arg).2 "" with
        | ok m2 =>
            rw [hr] at hok
            simp only [terminalWrap, Except.ok.injEq] at hok
            exact ⟨(ParseKindArg arg).2, "", by rw [hr, hok]⟩
        | error e =>
            rw [hr] at hok
            simp only [terminalWrap] at hok
            split at hok <;> cases hok
      · have hne : (fullKindGVK arg).Empty = false := bool_not_true hfe
        cases hr : idx.restMapping (fullKindGVK arg).groupKind
            (fullKindGVK arg).version with
        | ok m2 =>
            rw [mappingFor, mappingForT_attempt_ok arg idx m2 h0 hE hne hr]
              at hok
            dsimp only at hok
            simp only [Except.ok.injEq] at hok
            exact ⟨(fullKindGVK arg).groupKind, (fullKindGVK arg).version,
              by rw [hr, hok]⟩
        | error e =>
            rw [mappingFor, mappingForT_attempt_fails arg idx e h0 hE hne hr]
              at hok
            dsimp only at hok
            cases hr2 : idx.restMapping (ParseKindArg arg).2 "" with
            | ok m2 =>
                rw [hr2] at hok
                simp only [terminalWrap, Except.ok.injEq] at hok
                exact ⟨(ParseKindArg arg).2, "", by rw [hr2, hok]⟩
            | error e2 =>
                rw [hr2] at hok
                simp only [terminalWrap] at hok
                split at hok <;> cases hok
    · have hNE : (gvkAfterKindFor arg idx).Empty = false := bool_not_true hE
      rw [mappingFor, mappingForT_of_gvk_nonempty arg idx h0 hNE] at hok
      dsimp only at hok
      cases hr : idx.restMapping (gvkAfterKindFor arg idx).groupKind
          (gvkAfterKindFor arg idx).version with
      | ok m2 =>
          rw [hr] at hok
          simp only [Except.ok.injEq] at hok
          exact ⟨(gvkAfterKindFor arg idx).groupKind,
            (gvkAfterKindFor arg idx).version, by rw [hr, hok]⟩
      | error e =>
          rw [hr] at hok
          simp at hok

/-- C8 (amended): a successful resolution returns exactly a mapping the
index's `RESTMapping` produced; hence whenever every mapping the index
can return has a non-empty GVR resource, so does every mapping the
resolver returns — but the resolver itself never checks, so the
guarantee is inherited from the index, not enforced. -/
theorem success_resource_nonempty (arg : String) (idx : CapabilityIndex)
    (m : RESTMapping)
    (hidx : ∀ gk v m2, idx.restMapping gk v = .ok m2 →
      m2.resource.resource ≠ "")
    (hok : mappingFor arg idx = .ok m) :
    m.resource.resource ≠ "" := by
  obtain ⟨gk, v, h⟩ := mappingFor_ok_from_index arg idx m hok
  exact hidx gk v m h

/-- Witness for the amended C8 at `"pods"` against the pods index. -/
theorem success_resource_nonempty_witness :
    mappingFor "pods" podsIndex = .ok mPods ∧
    mPods.resource.resource ≠ "" := by
  refine ⟨rfl, success_resource_nonempty "pods" podsIndex mPods ?_ rfl⟩
  intro gk v m2 hm2
  unfold podsIndex at hm2
  dsimp only at hm2
  split at hm2
  · simp only [Except.ok.injEq] at hm2
    subst hm2
    decide
  · simp at hm2

/-- C9: resolution is a deterministic function of the token and of the
index's answers: two calls against indexes answering every query
identically (in particular two calls against the same unchanged index)
return identical results and issue identical queries; the embedded
resolver threads no other state and performs no writes. -/
theorem resolve_deterministic (arg : String) (idx1 idx2 : CapabilityIndex)
    (hk : ∀ gvr, idx1.kindFor gvr = idx2.kindFor gvr)
    (hrm : ∀ gk v, idx1.restMapping gk v = idx2.restMapping gk v) :
    mappingForT arg idx1 = mappingForT arg idx2 := by
  have h1 : idx1 = idx2 := by
    cases idx1
    cases idx2
    simp only [CapabilityIndex.mk.injEq]
    exact ⟨funext hk, funext fun gk => funext fun v => hrm gk v⟩
  rw [h1]

/-- A field-for-field copy of the pods index. -/
def podsIndexCopy : CapabilityIndex where
  kindFor gvr := podsIndex.kindFor gvr
  restMapping gk v := podsIndex.restMapping gk v

/-- Witness for C9: the pods index and its copy resolve `"pods"`
identically. -/
theorem resolve_deterministic_witness :
    mappingForT "pods" podsIndex = mappingForT "pods" podsIndexCopy :=
  resolve_deterministic "pods" podsIndex podsIndexCopy
    (fun _ => rfl) (fun _ _ => rfl)
